import Mathlib

/-!
Shallow embedding of the real-time MIDI/audio dispatch engine of
AudioFilePlayerPlugin (Source/PluginProcessor.cpp), together with theorems
settling the behavioural claims about it.

Modelling conventions:
* Times (MIDI timestamps in seconds, `nextStartTime`, sample rate) are `ℚ`,
  standing in for the C++ `double`s; all the comparisons the code performs
  are order comparisons, faithfully mirrored on `ℚ`.
* A MIDI message payload is its raw byte list.
* The per-block routine `processBlock` is modelled as a function from the
  processor state (plus the two environment inputs it cannot control: whether
  the non-blocking `ScopedTryLock` succeeds, and the block's sample count) to
  the new state and an ordered trace of its observable effects: the
  unconditional transport advance, the lock attempt, messages added to the
  caller's `MidiBuffer`, and payloads forwarded to the external Lumi sink.
-/

namespace AudioFilePlayer

/-- One timed MIDI event of a `MidiMessageSequence`: timestamp in seconds
(after `convertTimestampTicksToSeconds`) and the raw message bytes. -/
structure MidiEvent where
  timestamp : ℚ
  payload : List Nat
deriving DecidableEq, Repr

/-- A `juce::MidiMessageSequence`: the events of one MIDI track, in stored
(timestamp-ascending) order. -/
structure Track where
  events : List MidiEvent
deriving DecidableEq, Repr

/-- JUCE `MidiMessageSequence::getEndTime()`: the timestamp of the last event,
or 0 for an empty sequence. -/
def Track.getEndTime (t : Track) : ℚ :=
  match t.events.getLast? with
  | some e => e.timestamp
  | none => 0

/-- The three channel-wide "off" messages `sendAllNotesOff` emits, tagged with
their 1-based MIDI channel (`juce::MidiMessage::allNotesOff(ch)` etc.). -/
inductive ChannelMsg where
  | allNotesOff (channel : Nat)
  | allSoundOff (channel : Nat)
  | allControllersOff (channel : Nat)
deriving DecidableEq, Repr

/-- One observable effect of a `processBlock` invocation, in program order. -/
inductive Effect where
  | advanceTransport (numSamples : Nat)
  | tryLock (acquired : Bool)
  | bufMsg (m : ChannelMsg)
  | sinkEvent (payload : List Nat)
deriving DecidableEq, Repr

/-- The message list of `sendAllNotesOff` (PluginProcessor.cpp:189-197): for
each channel i = 1..16 in order, all-notes-off, all-sound-off,
all-controllers-off, each added to the caller's `MidiBuffer`. -/
def sendAllNotesOffMsgs : List ChannelMsg :=
  (List.range' 1 16).flatMap fun i =>
    [ChannelMsg.allNotesOff i, ChannelMsg.allSoundOff i, ChannelMsg.allControllersOff i]

/-- The effect trace of one `sendAllNotesOff` call. -/
def flushTrace : List Effect := sendAllNotesOffMsgs.map Effect.bufMsg

/-- The processor state touched by the embedded routines: the published
`MIDIFile` tracks, the playback-state fields (`numTracks`, `currentTrack`,
`trackHasChanged`, `isPlayingSomething`, `nextStartTime`), the sample rate the
host configured, and the transport position in samples (our abstraction of the
`transportSource` stream having been pulled). -/
structure ProcState where
  midiFile : List Track
  numTracks : Nat
  currentTrack : Nat
  trackHasChanged : Bool
  isPlayingSomething : Bool
  nextStartTime : ℚ
  sampleRate : ℚ
  transportPos : Nat
deriving DecidableEq, Repr

/-- State effect of `sendAllNotesOff` (PluginProcessor.cpp:198):
`isPlayingSomething = false`. Its emitted messages are `flushTrace`. -/
def flushState (s : ProcState) : ProcState :=
  {s with isPlayingSomething := false}

/-- The sequence `processBlock` scans: `MIDIFile.getTrack(currentTrack.load())`
(PluginProcessor.cpp:135). The C++ returns a pointer that is only dereferenced
under the invariant that `currentTrack` is in range; the embedding totalises
the lookup with an empty default track. -/
def ProcState.currentSeq (s : ProcState) : Track :=
  s.midiFile.getD s.currentTrack ⟨[]⟩

/-- The discontinuity test of PluginProcessor.cpp:142:
`std::abs(startTime - nextStartTime) > sampleLength && nextStartTime > 0.0`
with `sampleLength = 1.0 / getSampleRate()`. -/
def discontinuityCheck (s : ProcState) (startTime : ℚ) : Bool :=
  decide (|startTime - s.nextStartTime| > 1 / s.sampleRate) && decide (s.nextStartTime > 0)

/-- The events the scan loop of PluginProcessor.cpp:163-176 forwards: those
whose timestamp satisfies `>= startTime && < endTime`, kept in stored order. -/
def dueEvents (seq : Track) (startTime endTime : ℚ) : List MidiEvent :=
  seq.events.filter fun e => decide (e.timestamp ≥ startTime) && decide (e.timestamp < endTime)

/-- Lines 135-178 of `processBlock`: the body run when the try-lock succeeded
and `numTracks > 0`. The source fixes the local `auto startTime = 0;` at line
137; it is a parameter here so the windowed scan can also be stated at other
window starts, and `processBlock` instantiates it at 0 exactly as the source
does. Steps, in source order: the discontinuity check (line 142) possibly
flushing; `nextStartTime = endTime` (line 145); the end-of-timeline branch
(line 148) flushing and skipping the scan; otherwise the track-change flush
(lines 154-158) followed by the forwarding loop (lines 163-176), which calls
`lumiMIDIEvent` on each due event and sets `isPlayingSomething = true`. -/
def scanTrack (s : ProcState) (startTime : ℚ) : ProcState × List Effect :=
  let seq := s.currentSeq
  let endTime := seq.getEndTime
  let disc := discontinuityCheck s startTime
  let s1 := if disc then flushState s else s
  let fl1 : List Effect := if disc then flushTrace else []
  let s2 := {s1 with nextStartTime := endTime}
  if s2.isPlayingSomething && decide (startTime ≥ endTime) then
    (flushState s2, fl1 ++ flushTrace)
  else
    let s3 := if s2.trackHasChanged then flushState {s2 with trackHasChanged := false} else s2
    let fl2 : List Effect := if s2.trackHasChanged then flushTrace else []
    let due := dueEvents seq startTime endTime
    let s4 := if due.isEmpty then s3 else {s3 with isPlayingSomething := true}
    (s4, fl1 ++ fl2 ++ due.map fun e => Effect.sinkEvent e.payload)

/-- Model of `AudioFilePlayerProcessor::processBlock` (PluginProcessor.cpp:120-187):
pull the next audio block from `transportSource` unconditionally, attempt the
non-blocking `processLock`; on success with a loaded file run the scan with
`startTime = 0`; on failure flush iff `isPlayingSomething`. -/
def processBlock (s : ProcState) (lockAcquired : Bool) (numSamples : Nat) :
    ProcState × List Effect :=
  let s0 := {s with transportPos := s.transportPos + numSamples}
  let pre : List Effect := [Effect.advanceTransport numSamples, Effect.tryLock lockAcquired]
  if lockAcquired then
    if s0.numTracks > 0 then
      let r := scanTrack s0 0
      (r.1, pre ++ r.2)
    else (s0, pre)
  else if s0.isPlayingSomething then (flushState s0, pre ++ flushTrace)
  else (s0, pre)

/-- The condition of the end-of-timeline branch (PluginProcessor.cpp:148) as
evaluated there: `isPlayingSomething` has already been cleared if the
discontinuity flush ran, and `startTime >= theSequence->getEndTime()`. -/
def endBranchTaken (s : ProcState) (startTime : ℚ) : Bool :=
  (if discontinuityCheck s startTime then false else s.isPlayingSomething)
    && decide (startTime ≥ s.currentSeq.getEndTime)

/-- Model of `AudioFilePlayerProcessor::loadMIDIFile` (PluginProcessor.cpp:97-112):
clear the published file, read the new one (a failed or empty read leaves the
cleared file), convert ticks to seconds, then store
`numTracks = getNumTracks()`, `currentTrack = 0`, `trackHasChanged = false`.
`parsed = none` models a stream `MIDIFile.readFrom` could not read; `some tl`
models a successful parse producing tracks `tl` (already in seconds). The
function returns no error and touches neither `isPlayingSomething` nor
`nextStartTime`. -/
def loadMIDIFile (s : ProcState) (parsed : Option (List Track)) : ProcState :=
  let newFile : List Track :=
    match parsed with
    | some tl => tl
    | none => []
  {s with midiFile := newFile, numTracks := newFile.length,
          currentTrack := 0, trackHasChanged := false}

/-- State of the audio-transport side of the processor: which file source is
plugged into `transportSource`, and `currentlyLoadedFile`. -/
structure AudioEngine where
  installedSource : Option String
  currentlyLoadedFile : String
deriving DecidableEq, Repr

/-- Model of `AudioFilePlayerProcessor::loadAudioFileIntoTransport`
(PluginProcessor.cpp:242-263): stop the transport and unload the previous
source unconditionally, record the new path in `currentlyLoadedFile`, then
install a new reader source only if `formatManager.createReaderFor` found a
matching decoder (`readerAvailable`); the function returns no error. -/
def loadAudioFileIntoTransport (a : AudioEngine) (audioFile : String)
    (readerAvailable : Bool) : AudioEngine :=
  let a1 : AudioEngine := {a with installedSource := none, currentlyLoadedFile := audioFile}
  if readerAvailable then {a1 with installedSource := some audioFile} else a1

/-- Payloads forwarded to the external sink, in order, within a trace. -/
def sinkPayloads (t : List Effect) : List (List Nat) :=
  t.filterMap fun e =>
    match e with
    | Effect.sinkEvent p => some p
    | _ => none

/-- Messages added to the caller's `MidiBuffer`, in order, within a trace. -/
def bufMsgs (t : List Effect) : List ChannelMsg :=
  t.filterMap fun e =>
    match e with
    | Effect.bufMsg m => some m
    | _ => none

/-- Number of transport advances in a trace. -/
def countAdvances (t : List Effect) : Nat :=
  (t.filter fun e =>
    match e with
    | Effect.advanceTransport _ => true
    | _ => false).length

/-- Model of `AudioFilePlayerProcessor::sendAllNotesOff` (PluginProcessor.cpp:189-199)
as a state/trace pair: the messages of `sendAllNotesOffMsgs` are added to the
caller's buffer and `isPlayingSomething` is cleared. `scanTrack` and
`processBlock` inline this pair as `flushState`/`flushTrace`. -/
def sendAllNotesOff (s : ProcState) : ProcState × List Effect :=
  (flushState s, flushTrace)

/-- Test fixture: the example track of spec section 8 — three events at
timestamps 0, 0.5 and 1.2 seconds (distinct raw payloads), so
`getEndTime = 1.2`. -/
def exTrack : Track :=
  ⟨[⟨0, [144, 60, 100]⟩, ⟨1/2, [128, 60, 0]⟩, ⟨6/5, [144, 62, 100]⟩]⟩

/-- Test fixture: the state right after loading a file containing `exTrack`
into a fresh processor running at 44100 Hz. -/
def exLoaded : ProcState :=
  loadMIDIFile ⟨[], 0, 0, false, false, 0, 44100, 0⟩ (some [exTrack])

/-- Test fixture: `exLoaded` with something sounding. -/
def exSounding : ProcState :=
  {exLoaded with isPlayingSomething := true}

/-- Test fixture: `exLoaded` after a pending track switch. -/
def exSwitched : ProcState :=
  {exLoaded with trackHasChanged := true}

/-- Test fixture: the state `processBlock` reaches after one block on
`exLoaded` — `nextStartTime` now holds the track's end time 1.2. -/
def exGap : ProcState :=
  ⟨[exTrack], 1, 0, false, true, 6/5, 44100, 512⟩

/-- Test fixture: an empty-timeline state whose `nextStartTime` is 5. -/
def preloadState : ProcState :=
  ⟨[], 0, 0, false, false, 5, 44100, 0⟩

/-- Test fixture: a two-track state with track 1 selected and sounding. -/
def twoTrackState : ProcState :=
  ⟨[exTrack, exTrack], 2, 1, false, true, 3, 44100, 0⟩

/-- Projection lemma: no sink event in the empty trace. -/
@[simp] theorem sinkPayloads_nil : sinkPayloads [] = [] := rfl

/-- Projection lemma: a transport advance forwards nothing to the sink. -/
@[simp] theorem sinkPayloads_cons_advance (k : Nat) (t : List Effect) :
    sinkPayloads (Effect.advanceTransport k :: t) = sinkPayloads t := rfl

/-- Projection lemma: a lock attempt forwards nothing to the sink. -/
@[simp] theorem sinkPayloads_cons_tryLock (b : Bool) (t : List Effect) :
    sinkPayloads (Effect.tryLock b :: t) = sinkPayloads t := rfl

/-- Projection lemma: a buffer message forwards nothing to the sink. -/
@[simp] theorem sinkPayloads_cons_bufMsg (m : ChannelMsg) (t : List Effect) :
    sinkPayloads (Effect.bufMsg m :: t) = sinkPayloads t := rfl

/-- Projection lemma: a sink event contributes its payload. -/
@[simp] theorem sinkPayloads_cons_sink (p : List Nat) (t : List Effect) :
    sinkPayloads (Effect.sinkEvent p :: t) = p :: sinkPayloads t := rfl

/-- Projection lemma: no buffer message in the empty trace. -/
@[simp] theorem bufMsgs_nil : bufMsgs [] = [] := rfl

/-- Projection lemma: a transport advance adds no buffer message. -/
@[simp] theorem bufMsgs_cons_advance (k : Nat) (t : List Effect) :
    bufMsgs (Effect.advanceTransport k :: t) = bufMsgs t := rfl

/-- Projection lemma: a lock attempt adds no buffer message. -/
@[simp] theorem bufMsgs_cons_tryLock (b : Bool) (t : List Effect) :
    bufMsgs (Effect.tryLock b :: t) = bufMsgs t := rfl

/-- Projection lemma: a buffer message contributes itself. -/
@[simp] theorem bufMsgs_cons_bufMsg (m : ChannelMsg) (t : List Effect) :
    bufMsgs (Effect.bufMsg m :: t) = m :: bufMsgs t := rfl

/-- Projection lemma: a sink event adds no buffer message. -/
@[simp] theorem bufMsgs_cons_sink (p : List Nat) (t : List Effect) :
    bufMsgs (Effect.sinkEvent p :: t) = bufMsgs t := rfl

/-- Projection lemma: the empty trace advances the transport zero times. -/
@[simp] theorem countAdvances_nil : countAdvances [] = 0 := rfl

/-- Projection lemma: a lock attempt is not a transport advance. -/
@[simp] theorem countAdvances_cons_tryLock (b : Bool) (t : List Effect) :
    countAdvances (Effect.tryLock b :: t) = countAdvances t := by
  simp [countAdvances, List.filter_cons]

/-- Projection lemma: a buffer message is not a transport advance. -/
@[simp] theorem countAdvances_cons_bufMsg (m : ChannelMsg) (t : List Effect) :
    countAdvances (Effect.bufMsg m :: t) = countAdvances t := by
  simp [countAdvances, List.filter_cons]

/-- Projection lemma: a sink event is not a transport advance. -/
@[simp] theorem countAdvances_cons_sink (p : List Nat) (t : List Effect) :
    countAdvances (Effect.sinkEvent p :: t) = countAdvances t := by
  simp [countAdvances, List.filter_cons]

/-- Sink payloads distribute over trace concatenation. -/
theorem sinkPayloads_append (a b : List Effect) :
    sinkPayloads (a ++ b) = sinkPayloads a ++ sinkPayloads b :=
  List.filterMap_append a b _

/-- Buffer messages distribute over trace concatenation. -/
theorem bufMsgs_append (a b : List Effect) :
    bufMsgs (a ++ b) = bufMsgs a ++ bufMsgs b :=
  List.filterMap_append a b _

/-- Transport advances distribute over trace concatenation. -/
theorem countAdvances_append (a b : List Effect) :
    countAdvances (a ++ b) = countAdvances a + countAdvances b := by
  simp [countAdvances, List.filter_append]

/-- A Safety Flush forwards nothing to the external sink. -/
theorem sinkPayloads_flushTrace : sinkPayloads flushTrace = [] := by decide

/-- A Safety Flush places exactly its 48 messages in the buffer. -/
theorem bufMsgs_flushTrace : bufMsgs flushTrace = sendAllNotesOffMsgs := by decide

/-- A Safety Flush never advances the transport. -/
theorem countAdvances_flushTrace : countAdvances flushTrace = 0 := by decide

/-- Forwarded events project to exactly their payloads, in order. -/
@[simp] theorem sinkPayloads_sink_map (l : List MidiEvent) :
    sinkPayloads (l.map fun e => Effect.sinkEvent e.payload) = l.map MidiEvent.payload := by
  induction l with
  | nil => rfl
  | cons e t ih => simp only [List.map_cons, sinkPayloads_cons_sink, ih]

/-- Forwarded events place no message in the buffer. -/
@[simp] theorem bufMsgs_sink_map (l : List MidiEvent) :
    bufMsgs (l.map fun e => Effect.sinkEvent e.payload) = [] := by
  induction l with
  | nil => rfl
  | cons e t ih => simp only [List.map_cons, bufMsgs_cons_sink, ih]

/-- Forwarded events never advance the transport. -/
@[simp] theorem countAdvances_sink_map (l : List MidiEvent) :
    countAdvances (l.map fun e => Effect.sinkEvent e.payload) = 0 := by
  induction l with
  | nil => rfl
  | cons e t ih => simp only [List.map_cons, countAdvances_cons_sink, ih]

/-- The scan body never touches the transport position. -/
theorem scanTrack_transportPos (s : ProcState) (st : ℚ) :
    (scanTrack s st).1.transportPos = s.transportPos := by
  obtain ⟨mf, nt, ct, tc, ip, nst, sr, tp⟩ := s
  simp only [scanTrack]
  split_ifs <;> simp [flushState]

/-- The scan body never emits a transport advance. -/
theorem countAdvances_scanTrack (s : ProcState) (st : ℚ) :
    countAdvances (scanTrack s st).2 = 0 := by
  simp only [scanTrack]
  split_ifs <;>
    simp [countAdvances_append, countAdvances_flushTrace]

/-- Computation of the example loaded state. -/
theorem exLoaded_eq : exLoaded = ⟨[exTrack], 1, 0, false, false, 0, 44100, 0⟩ := rfl

/-- The example track ends at 1.2 seconds. -/
theorem exTrack_getEndTime : exTrack.getEndTime = 6/5 := rfl

/-- The window [0, 1.2) catches the first two example events but not the one
at the boundary timestamp 1.2. -/
theorem exTrack_due : dueEvents exTrack 0 (6/5)
    = [⟨0, [144, 60, 100]⟩, ⟨1/2, [128, 60, 0]⟩] := by
  norm_num [dueEvents, exTrack, List.filter]

/-- Full evaluation of the first block on the freshly loaded example state:
both in-window events are forwarded, the flag is raised, and `nextStartTime`
becomes the track's end time. -/
theorem block1_eq :
    processBlock exLoaded true 512
      = (⟨[exTrack], 1, 0, false, true, 6/5, 44100, 512⟩,
         [Effect.advanceTransport 512, Effect.tryLock true,
          Effect.sinkEvent [144, 60, 100], Effect.sinkEvent [128, 60, 0]]) := by
  rw [exLoaded_eq]
  norm_num [processBlock, scanTrack, discontinuityCheck, ProcState.currentSeq,
    List.getD, exTrack_getEndTime, exTrack_due, flushState]

/-- C1: when the try-lock is acquired, `trackCount > 0` and the
end-of-timeline branch is not taken, the block forwards to the external sink
exactly the current track's events with timestamp in [0, endTime), in stored
order, and raises `soundingFlag` whenever at least one event was forwarded. -/
theorem dispatch_forwards_exact_window (s : ProcState) (n : Nat)
    (htracks : 0 < s.numTracks)
    (hend : endBranchTaken s 0 = false) :
    sinkPayloads (processBlock s true n).2
      = (dueEvents s.currentSeq 0 s.currentSeq.getEndTime).map MidiEvent.payload
    ∧ (dueEvents s.currentSeq 0 s.currentSeq.getEndTime ≠ [] →
       (processBlock s true n).1.isPlayingSomething = true) := by
  obtain ⟨mf, nt, ct, tc, ip, nst, sr, tp⟩ := s
  simp only [endBranchTaken] at hend
  simp only [processBlock, scanTrack, if_pos htracks]
  by_cases hd : discontinuityCheck ⟨mf, nt, ct, tc, ip, nst, sr, tp + n⟩ 0 = true
  · have hd0 : discontinuityCheck ⟨mf, nt, ct, tc, ip, nst, sr, tp⟩ 0 = true := hd
    simp only [hd, hd0, if_true, flushState, Bool.false_and, Bool.if_true_left] at hend ⊢
    cases tc <;> cases ip <;>
      by_cases hdue : (dueEvents (ProcState.currentSeq ⟨mf, nt, ct, false, false, nst, sr, tp⟩) 0
          (ProcState.currentSeq ⟨mf, nt, ct, false, false, nst, sr, tp⟩).getEndTime).isEmpty = true <;>
      simp_all [sinkPayloads_append, sinkPayloads_flushTrace, sinkPayloads_sink_map,
        ProcState.currentSeq, List.isEmpty_iff]
  · have hd0 : discontinuityCheck ⟨mf, nt, ct, tc, ip, nst, sr, tp⟩ 0 = false :=
      Bool.of_not_eq_true hd
    have hdn : discontinuityCheck ⟨mf, nt, ct, tc, ip, nst, sr, tp + n⟩ 0 = false := hd0
    simp only [hd0, hdn, if_false, Bool.false_eq_true, flushState] at hend ⊢
    cases ip
    · simp only [Bool.false_and, Bool.if_true_left] at hend ⊢
      cases tc <;>
        by_cases hdue : (dueEvents (ProcState.currentSeq ⟨mf, nt, ct, false, false, nst, sr, tp⟩) 0
            (ProcState.currentSeq ⟨mf, nt, ct, false, false, nst, sr, tp⟩).getEndTime).isEmpty = true <;>
        simp_all [sinkPayloads_append, sinkPayloads_flushTrace, sinkPayloads_sink_map,
          ProcState.currentSeq, List.isEmpty_iff]
    · simp only [Bool.true_and] at hend
      cases tc <;>
        by_cases hdue : (dueEvents (ProcState.currentSeq ⟨mf, nt, ct, false, true, nst, sr, tp⟩) 0
            (ProcState.currentSeq ⟨mf, nt, ct, false, true, nst, sr, tp⟩).getEndTime).isEmpty = true <;>
        simp_all [sinkPayloads_append, sinkPayloads_flushTrace, sinkPayloads_sink_map,
          ProcState.currentSeq, List.isEmpty_iff, ← not_lt]

/-- C1 witness: on the freshly loaded example state the scan-path hypotheses
hold and the forwarded payloads are exactly the due events' payloads. -/
theorem dispatch_forwards_exact_window_witness :
    (0 < exLoaded.numTracks ∧ endBranchTaken exLoaded 0 = false)
    ∧ sinkPayloads (processBlock exLoaded true 512).2
        = (dueEvents exLoaded.currentSeq 0 exLoaded.currentSeq.getEndTime).map
            MidiEvent.payload := by
  have h1 : 0 < exLoaded.numTracks := by norm_num [exLoaded_eq]
  have h2 : endBranchTaken exLoaded 0 = false := by
    rw [exLoaded_eq]
    norm_num [endBranchTaken, discontinuityCheck, ProcState.currentSeq, List.getD,
      exTrack_getEndTime]
  exact ⟨⟨h1, h2⟩, (dispatch_forwards_exact_window exLoaded 512 h1 h2).1⟩

/-- C2: every Safety Flush emits, for channels 1 through 16 in order, exactly
all-notes-off, all-sound-off, all-controllers-off in that order — 48 messages
in total — and clears `soundingFlag`. -/
theorem safety_flush_emits_48_messages (s : ProcState) :
    (sendAllNotesOff s).2.length = 48
    ∧ bufMsgs (sendAllNotesOff s).2
      = [ChannelMsg.allNotesOff 1, ChannelMsg.allSoundOff 1, ChannelMsg.allControllersOff 1,
       ChannelMsg.allNotesOff 2, ChannelMsg.allSoundOff 2, ChannelMsg.allControllersOff 2,
       ChannelMsg.allNotesOff 3, ChannelMsg.allSoundOff 3, ChannelMsg.allControllersOff 3,
       ChannelMsg.allNotesOff 4, ChannelMsg.allSoundOff 4, ChannelMsg.allControllersOff 4,
       ChannelMsg.allNotesOff 5, ChannelMsg.allSoundOff 5, ChannelMsg.allControllersOff 5,
       ChannelMsg.allNotesOff 6, ChannelMsg.allSoundOff 6, ChannelMsg.allControllersOff 6,
       ChannelMsg.allNotesOff 7, ChannelMsg.allSoundOff 7, ChannelMsg.allControllersOff 7,
       ChannelMsg.allNotesOff 8, ChannelMsg.allSoundOff 8, ChannelMsg.allControllersOff 8,
       ChannelMsg.allNotesOff 9, ChannelMsg.allSoundOff 9, ChannelMsg.allControllersOff 9,
       ChannelMsg.allNotesOff 10, ChannelMsg.allSoundOff 10, ChannelMsg.allControllersOff 10,
       ChannelMsg.allNotesOff 11, ChannelMsg.allSoundOff 11, ChannelMsg.allControllersOff 11,
       ChannelMsg.allNotesOff 12, ChannelMsg.allSoundOff 12, ChannelMsg.allControllersOff 12,
       ChannelMsg.allNotesOff 13, ChannelMsg.allSoundOff 13, ChannelMsg.allControllersOff 13,
       ChannelMsg.allNotesOff 14, ChannelMsg.allSoundOff 14, ChannelMsg.allControllersOff 14,
       ChannelMsg.allNotesOff 15, ChannelMsg.allSoundOff 15, ChannelMsg.allControllersOff 15,
       ChannelMsg.allNotesOff 16, ChannelMsg.allSoundOff 16, ChannelMsg.allControllersOff 16]
    ∧ (sendAllNotesOff s).1.isPlayingSomething = false :=
  ⟨rfl, rfl, rfl⟩

/-- C3: when the try-lock fails, a sounding block gets a full Safety Flush in
its outgoing buffer and ends with `soundingFlag` clear; a non-sounding block
emits nothing and leaves every playback-state field unchanged (only the
transport has advanced). -/
theorem lock_contention_flush (s : ProcState) (n : Nat) :
    (s.isPlayingSomething = true →
      bufMsgs (processBlock s false n).2 = sendAllNotesOffMsgs
      ∧ sinkPayloads (processBlock s false n).2 = []
      ∧ (processBlock s false n).1
          = {s with isPlayingSomething := false, transportPos := s.transportPos + n})
    ∧ (s.isPlayingSomething = false →
      bufMsgs (processBlock s false n).2 = []
      ∧ sinkPayloads (processBlock s false n).2 = []
      ∧ (processBlock s false n).1 = {s with transportPos := s.transportPos + n}) := by
  obtain ⟨mf, nt, ct, tc, ip, nst, sr, tp⟩ := s
  cases ip <;>
    simp [processBlock, flushState, bufMsgs_append, bufMsgs_flushTrace,
      sinkPayloads_append, sinkPayloads_flushTrace]

/-- C3 witness: a sounding example state whose block-64 lock failure flushes. -/
theorem lock_contention_flush_witness :
    exSounding.isPlayingSomething = true
    ∧ bufMsgs (processBlock exSounding false 64).2 = sendAllNotesOffMsgs :=
  ⟨rfl, ((lock_contention_flush exSounding 64).1 rfl).1⟩

/-- C4: if `trackHasChanged` is pending and the scan path is reached, the
block clears it and the trace shows a full Safety Flush strictly before the
forwarded events of the newly selected track. -/
theorem track_switch_flush_before_events (s : ProcState) (n : Nat)
    (htracks : 0 < s.numTracks)
    (hch : s.trackHasChanged = true)
    (hend : endBranchTaken s 0 = false) :
    (processBlock s true n).1.trackHasChanged = false
    ∧ ∃ t1, sinkPayloads t1 = []
        ∧ (processBlock s true n).2
          = t1 ++ flushTrace
            ++ (dueEvents s.currentSeq 0 s.currentSeq.getEndTime).map
                (fun e => Effect.sinkEvent e.payload) := by
  obtain ⟨mf, nt, ct, tc, ip, nst, sr, tp⟩ := s
  simp only at hch
  subst hch
  simp only [endBranchTaken] at hend
  simp only [processBlock, scanTrack, if_pos htracks, flushState]
  by_cases hd : discontinuityCheck ⟨mf, nt, ct, true, ip, nst, sr, tp + n⟩ 0 = true
  · have hd0 : discontinuityCheck ⟨mf, nt, ct, true, ip, nst, sr, tp⟩ 0 = true := hd
    refine ⟨?_, [Effect.advanceTransport n, Effect.tryLock true] ++ flushTrace, ?_, ?_⟩ <;>
      by_cases hdue : (dueEvents (ProcState.currentSeq ⟨mf, nt, ct, true, false, nst, sr, tp⟩) 0
          (ProcState.currentSeq ⟨mf, nt, ct, true, false, nst, sr, tp⟩).getEndTime).isEmpty = true <;>
      simp_all [sinkPayloads_append, sinkPayloads_flushTrace, ProcState.currentSeq]
  · have hd0 : discontinuityCheck ⟨mf, nt, ct, true, ip, nst, sr, tp⟩ 0 = false :=
      Bool.of_not_eq_true hd
    have hdn : discontinuityCheck ⟨mf, nt, ct, true, ip, nst, sr, tp + n⟩ 0 = false := hd0
    simp only [hd0, hdn, Bool.false_eq_true, if_false] at hend ⊢
    cases ip
    · refine ⟨?_, [Effect.advanceTransport n, Effect.tryLock true], ?_, ?_⟩ <;>
        by_cases hdue : (dueEvents (ProcState.currentSeq ⟨mf, nt, ct, true, false, nst, sr, tp⟩) 0
            (ProcState.currentSeq ⟨mf, nt, ct, true, false, nst, sr, tp⟩).getEndTime).isEmpty = true <;>
        simp_all [sinkPayloads_append, sinkPayloads_flushTrace, ProcState.currentSeq]
    · simp only [Bool.true_and] at hend
      refine ⟨?_, [Effect.advanceTransport n, Effect.tryLock true], ?_, ?_⟩ <;>
        by_cases hdue : (dueEvents (ProcState.currentSeq ⟨mf, nt, ct, true, true, nst, sr, tp⟩) 0
            (ProcState.currentSeq ⟨mf, nt, ct, true, true, nst, sr, tp⟩).getEndTime).isEmpty = true <;>
        simp_all [sinkPayloads_append, sinkPayloads_flushTrace, ProcState.currentSeq, ← not_lt]

/-- C4 witness: a pending track switch on the example state is cleared by the
next block. -/
theorem track_switch_flush_before_events_witness :
    (0 < exSwitched.numTracks ∧ exSwitched.trackHasChanged = true
      ∧ endBranchTaken exSwitched 0 = false)
    ∧ (processBlock exSwitched true 512).1.trackHasChanged = false := by
  have h1 : 0 < exSwitched.numTracks := by norm_num [exSwitched, exLoaded_eq]
  have h3 : endBranchTaken exSwitched 0 = false := by
    show endBranchTaken ⟨[exTrack], 1, 0, true, false, 0, 44100, 0⟩ 0 = false
    norm_num [endBranchTaken, discontinuityCheck, ProcState.currentSeq, List.getD,
      exTrack_getEndTime]
  exact ⟨⟨h1, rfl, h3⟩, (track_switch_flush_before_events exSwitched 512 h1 rfl h3).1⟩

/-- C5 counterexample: a successful load leaves `nextStartTime` (the spec's
`lastWindowEnd`) at its pre-load value 5, not 0. -/
theorem load_keeps_lastWindowEnd_cex :
    (loadMIDIFile preloadState (some [exTrack])).nextStartTime = 5
    ∧ (5 : ℚ) ≠ 0 := by
  constructor
  · rfl
  · norm_num

/-- C5 amended: a successful load sets `trackCount` to the parsed track count,
`currentTrackIndex` to 0 and `trackChanged` to false, publishes the parsed
tracks, and leaves `soundingFlag` AND `lastWindowEnd` unchanged (the source
never writes `nextStartTime` during a load). -/
theorem load_resets_state_amended (s : ProcState) (tl : List Track) :
    (loadMIDIFile s (some tl)).numTracks = tl.length
    ∧ (loadMIDIFile s (some tl)).currentTrack = 0
    ∧ (loadMIDIFile s (some tl)).trackHasChanged = false
    ∧ (loadMIDIFile s (some tl)).midiFile = tl
    ∧ (loadMIDIFile s (some tl)).isPlayingSomething = s.isPlayingSomething
    ∧ (loadMIDIFile s (some tl)).nextStartTime = s.nextStartTime :=
  ⟨rfl, rfl, rfl, rfl, rfl, rfl⟩

/-- C6 counterexample: a failing MIDI load does not leave the previous
Timeline and Playback State untouched — it clears the published two-track
file and zeroes `trackCount`; a failing audio load likewise drops the
previously installed source. -/
theorem failing_load_destroys_state_cex :
    ((loadMIDIFile twoTrackState none).numTracks = 0
      ∧ (loadMIDIFile twoTrackState none).midiFile = []
      ∧ twoTrackState.numTracks = 2
      ∧ twoTrackState.midiFile ≠ [])
    ∧ ((loadAudioFileIntoTransport ⟨some "old.wav", "old.wav"⟩ "broken.xyz" false).installedSource
        = none
      ∧ (⟨some "old.wav", "old.wav"⟩ : AudioEngine).installedSource = some "old.wav") := by
  refine ⟨⟨rfl, rfl, rfl, ?_⟩, rfl, rfl⟩
  simp [twoTrackState]

/-- C6 amended: a failing MIDI load destroys the previous state — the
published file becomes empty, `trackCount` 0, `currentTrackIndex` 0,
`trackChanged` false (`soundingFlag` and `lastWindowEnd` untouched) — and a
failing audio load removes the previously installed source, installs nothing,
and still records the new path; neither load reports any error to its caller
(both C++ functions return void). -/
theorem failing_load_amended (s : ProcState) (a : AudioEngine) (f : String) :
    (loadMIDIFile s none).midiFile = []
    ∧ (loadMIDIFile s none).numTracks = 0
    ∧ (loadMIDIFile s none).currentTrack = 0
    ∧ (loadMIDIFile s none).trackHasChanged = false
    ∧ (loadMIDIFile s none).isPlayingSomething = s.isPlayingSomething
    ∧ (loadMIDIFile s none).nextStartTime = s.nextStartTime
    ∧ (loadAudioFileIntoTransport a f false).installedSource = none
    ∧ (loadAudioFileIntoTransport a f false).currentlyLoadedFile = f :=
  ⟨rfl, rfl, rfl, rfl, rfl, rfl, rfl, rfl⟩

/-- C7 counterexample: the discontinuity check is not dead code — it evaluates
to true on the state actually reached after one block on the freshly loaded
example timeline, and the following block's outgoing buffer carries the full
Safety Flush it emits. -/
theorem discontinuity_check_fires_cex :
    discontinuityCheck (processBlock exLoaded true 512).1 0 = true
    ∧ bufMsgs (processBlock (processBlock exLoaded true 512).1 true 512).2
        = sendAllNotesOffMsgs := by
  rw [block1_eq]
  constructor
  · norm_num [discontinuityCheck, abs_sub_comm, abs_of_nonneg]
  · norm_num [processBlock, scanTrack, discontinuityCheck, ProcState.currentSeq,
      List.getD, exTrack_getEndTime, exTrack_due, flushState, abs_sub_comm,
      abs_of_nonneg, bufMsgs_append, bufMsgs_flushTrace]

/-- C7 amended: far from never triggering, under the constant `startTime = 0`
policy the discontinuity check evaluates to true in every locked scan block
whose recorded `nextStartTime` exceeds one sample period (which holds from the
second scan of any track ending later than one sample period), and the block's
trace then opens with the discontinuity Safety Flush right after the lock. -/
theorem discontinuity_flush_fires_amended (s : ProcState) (n : Nat)
    (htracks : 0 < s.numTracks)
    (hgap : 1 / s.sampleRate < s.nextStartTime)
    (hpos : 0 < s.nextStartTime) :
    discontinuityCheck s 0 = true
    ∧ ∃ rest, (processBlock s true n).2
        = [Effect.advanceTransport n, Effect.tryLock true] ++ flushTrace ++ rest := by
  have hgap2 : s.sampleRate⁻¹ < s.nextStartTime := by rwa [one_div] at hgap
  have hd : discontinuityCheck s 0 = true := by
    simp [discontinuityCheck, abs_sub_comm, sub_zero, abs_of_pos hpos, hgap2, hpos]
  refine ⟨hd, ?_⟩
  obtain ⟨mf, nt, ct, tc, ip, nst, sr, tp⟩ := s
  have hdn : discontinuityCheck ⟨mf, nt, ct, tc, ip, nst, sr, tp + n⟩ 0 = true := hd
  simp only [processBlock, scanTrack, if_pos htracks, flushState, hdn, if_true,
    Bool.false_and, Bool.if_true_left]
  cases tc <;>
    by_cases hdue : (dueEvents (ProcState.currentSeq ⟨mf, nt, ct, false, false, nst, sr, tp⟩) 0
        (ProcState.currentSeq ⟨mf, nt, ct, false, false, nst, sr, tp⟩).getEndTime).isEmpty = true <;>
    simp_all [ProcState.currentSeq]

/-- C7 amended witness: the state after the first example block satisfies the
gap hypotheses and its next check is true. -/
theorem discontinuity_flush_fires_amended_witness :
    (0 < exGap.numTracks ∧ 1 / exGap.sampleRate < exGap.nextStartTime
      ∧ 0 < exGap.nextStartTime)
    ∧ discontinuityCheck exGap 0 = true := by
  have h1 : 0 < exGap.numTracks := by norm_num [exGap]
  have h2 : 1 / exGap.sampleRate < exGap.nextStartTime := by norm_num [exGap]
  have h3 : 0 < exGap.nextStartTime := by norm_num [exGap]
  exact ⟨⟨h1, h2, h3⟩, (discontinuity_flush_fires_amended exGap 512 h1 h2 h3).1⟩

/-- C8 counterexample: the first scan of the spec's three-event example does
NOT forward all three events: the event at timestamp 1.2 is excluded by the
half-open window [0, 1.2). -/
theorem example_scan_boundary_cex :
    sinkPayloads (processBlock exLoaded true 512).2
      ≠ [[144, 60, 100], [128, 60, 0], [144, 62, 100]] := by
  rw [block1_eq]
  decide

/-- C8 amended: the first scan of the example timeline forwards exactly the
first two events (timestamps 0 and 0.5) in order — the event at the boundary
timestamp 1.2 is excluded by the half-open window — and sets `soundingFlag`;
a subsequent scan whose window start is 1.2 (≥ endTime) emits a Safety Flush,
forwards nothing, and clears `soundingFlag`. -/
theorem example_scan_amended_thm :
    sinkPayloads (processBlock exLoaded true 512).2 = [[144, 60, 100], [128, 60, 0]]
    ∧ (processBlock exLoaded true 512).1.isPlayingSomething = true
    ∧ bufMsgs (scanTrack (processBlock exLoaded true 512).1 (6/5)).2 = sendAllNotesOffMsgs
    ∧ sinkPayloads (scanTrack (processBlock exLoaded true 512).1 (6/5)).2 = []
    ∧ (scanTrack (processBlock exLoaded true 512).1 (6/5)).1.isPlayingSomething = false := by
  rw [block1_eq]
  refine ⟨by decide, rfl, ?_, ?_, ?_⟩ <;>
    norm_num [scanTrack, discontinuityCheck, ProcState.currentSeq, List.getD,
      exTrack_getEndTime, exTrack_due, flushState, bufMsgs_append, bufMsgs_flushTrace,
      sinkPayloads_append, sinkPayloads_flushTrace]

/-- C9: every block advances the streaming audio source by the block's sample
count exactly once, and the trace shows the advance strictly before the lock
attempt, whatever the lock outcome, timeline or MIDI state. -/
theorem transport_advances_unconditionally (s : ProcState) (lk : Bool) (n : Nat) :
    (processBlock s lk n).1.transportPos = s.transportPos + n
    ∧ ∃ rest, (processBlock s lk n).2
        = Effect.advanceTransport n :: Effect.tryLock lk :: rest
        ∧ countAdvances rest = 0 := by
  simp only [processBlock]
  split_ifs with h1 h2 h3
  · exact ⟨scanTrack_transportPos _ 0, (scanTrack _ 0).2, rfl, countAdvances_scanTrack _ 0⟩
  · exact ⟨rfl, [], rfl, rfl⟩
  · exact ⟨rfl, flushTrace, rfl, countAdvances_flushTrace⟩
  · exact ⟨rfl, [], rfl, rfl⟩

/-- C10: within one block, `soundingFlag` can go from false to true only by
forwarding: if it is false at entry and true at exit, at least one event was
forwarded to the external sink during that block. -/
theorem sounding_flag_requires_forward (s : ProcState) (lk : Bool) (n : Nat)
    (h0 : s.isPlayingSomething = false)
    (h1 : (processBlock s lk n).1.isPlayingSomething = true) :
    sinkPayloads (processBlock s lk n).2 ≠ [] := by
  obtain ⟨mf, nt, ct, tc, ip, nst, sr, tp⟩ := s
  simp only at h0
  subst h0
  simp only [processBlock, scanTrack, flushState] at h1 ⊢
  split_ifs at h1 ⊢ <;>
    simp_all [sinkPayloads_append, sinkPayloads_flushTrace, sinkPayloads_sink_map,
      List.isEmpty_iff, List.map_eq_nil_iff]

/-- C10 witness: the first example block raises the flag from false and indeed
forwards events. -/
theorem sounding_flag_requires_forward_witness :
    (exLoaded.isPlayingSomething = false
      ∧ (processBlock exLoaded true 512).1.isPlayingSomething = true)
    ∧ sinkPayloads (processBlock exLoaded true 512).2 ≠ [] := by
  have h0 : exLoaded.isPlayingSomething = false := rfl
  have h1 : (processBlock exLoaded true 512).1.isPlayingSomething = true := by
    rw [block1_eq]
  exact ⟨⟨h0, h1⟩, sounding_flag_requires_forward exLoaded true 512 h0 h1⟩

end AudioFilePlayer
